import Mathlib

/-
Verification of the image-to-insight processing core of the
AI-Enhanced Drone Pipeline for Crop Protection Field Trails.

The Python source is embedded shallowly:
  * raster pixel values (numpy float32) are modelled as rationals;
  * a raster is a list of pixel values (a flat view; where 2D structure
    matters, a list of rows is used);
  * numpy reductions that raise on empty input (np.min, np.max) are
    modelled through Option / Except;
  * free-text message fields built by string interpolation, the np.std
    field (an irrational square root) and the skimage-computed shape
    descriptors (eccentricity, solidity) are omitted: no statement below
    concerns them.
-/

namespace CropPipeline

/- ── config.py: NDVI thresholds (defaults of the env lookups) ── -/

def NDVI_HEALTHY : ℚ := 6/10

def NDVI_MODERATE : ℚ := 3/10

def NDVI_SEVERE : ℚ := 1/10

/- ── processing/ndvi_calculator.py: calculate_ndvi ── -/

/-- One pixel of the 4-band input raster; only Red (band 3) and NIR
(band 4) are read by calculate_ndvi. -/
structure BandPixel where
  red : ℚ
  nir : ℚ
deriving DecidableEq, Repr

/-- The per-pixel np.where step of calculate_ndvi:
ndvi = np.where(denominator > 0, (nir - red) / denominator, 0.0). -/
def ndviRaw (p : BandPixel) : ℚ :=
  if p.nir + p.red > 0 then (p.nir - p.red) / (p.nir + p.red) else 0

/-- numpy clip: clamp x into the interval from lo to hi. -/
def clip (lo hi x : ℚ) : ℚ := if x < lo then lo else if x > hi then hi else x

/-- Per-pixel value of the raster that calculate_ndvi writes:
ndvi.clip(-1.0, 1.0). -/
def ndviPixel (p : BandPixel) : ℚ := clip (-1) 1 (ndviRaw p)

/-- The computed NDVI raster of calculate_ndvi, as a flat list of pixels. -/
def calculate_ndvi_raster (img : List BandPixel) : List ℚ :=
  img.map ndviPixel

/-- valid = ndvi[ndvi > -9999]: the sentinel filter applied before any
statistics, both in calculate_ndvi and in classify_health. -/
def validPixels (ndvi : List ℚ) : List ℚ :=
  ndvi.filter (fun x => decide (-9999 < x))

/-- Count of pixels in a list satisfying a predicate. -/
def countQ (p : ℚ → Bool) (l : List ℚ) : ℕ := l.countP p

/-- Pixel is counted healthy: valid > NDVI_HEALTHY. -/
def isHealthy (x : ℚ) : Bool := decide (NDVI_HEALTHY < x)

/-- Pixel is counted moderate stress: NDVI_MODERATE < valid <= NDVI_HEALTHY. -/
def isModerate (x : ℚ) : Bool := decide (NDVI_MODERATE < x) && decide (x ≤ NDVI_HEALTHY)

/-- Pixel is counted severe stress: NDVI_SEVERE < valid <= NDVI_MODERATE. -/
def isSevere (x : ℚ) : Bool := decide (NDVI_SEVERE < x) && decide (x ≤ NDVI_MODERATE)

/-- Pixel is counted critical: valid <= NDVI_SEVERE. -/
def isCritical (x : ℚ) : Bool := decide (x ≤ NDVI_SEVERE)

/-- The class-percentage part of the statistics dict of calculate_ndvi.
Each percentage is (boolean mask).mean() * 100 over the valid pixels;
no rounding is applied in calculate_ndvi. The order statistics (min,
max, median, p25, p75) and mean/std are omitted here: no claim below
concerns them for this function, and on an empty valid list numpy
would yield nan or raise (the claims assume total_pixels > 0). -/
structure NdviStats where
  healthy_pct : ℚ
  moderate_stress_pct : ℚ
  severe_stress_pct : ℚ
  critical_pct : ℚ
  total_pixels : ℕ
deriving DecidableEq, Repr

/-- The statistics block of calculate_ndvi, computed over the valid
(sentinel-filtered) pixels. -/
def statsOf (valid : List ℚ) : NdviStats :=
  { healthy_pct := (countQ isHealthy valid : ℚ) / valid.length * 100
    moderate_stress_pct := (countQ isModerate valid : ℚ) / valid.length * 100
    severe_stress_pct := (countQ isSevere valid : ℚ) / valid.length * 100
    critical_pct := (countQ isCritical valid : ℚ) / valid.length * 100
    total_pixels := valid.length }

/-- calculate_ndvi end to end on the in-memory raster: compute the NDVI
raster, filter the sentinel, take statistics. -/
def calculate_ndvi_stats (img : List BandPixel) : NdviStats :=
  statsOf (validPixels (calculate_ndvi_raster img))

example : ndviPixel ⟨2000, 8000⟩ = 3/5 := by
  norm_num [ndviPixel, ndviRaw, clip]

/- ── ai_models/health_classifier.py ── -/

/-- Python round(x, 1): round half to even at one decimal digit. -/
def roundHalfEvenInt (x : ℚ) : ℤ :=
  let f := ⌊x⌋
  let frac := x - f
  if frac < 1/2 then f
  else if 1/2 < frac then f + 1
  else if Even f then f else f + 1

/-- round(x, 1) on an exact rational. -/
def round1 (x : ℚ) : ℚ := (roundHalfEvenInt (10 * x) : ℚ) / 10

/-- The pixel_counts block of classify_health. -/
structure PixelCounts where
  healthy : ℕ
  moderate_stress : ℕ
  severe_stress : ℕ
  critical : ℕ
  total : ℕ
deriving DecidableEq, Repr

/-- The percentages block of classify_health (rounded to one decimal,
0 when total = 0). -/
structure Percentages where
  healthy : ℚ
  moderate_stress : ℚ
  severe_stress : ℚ
  critical : ℚ
deriving DecidableEq, Repr

/-- _overall_health of health_classifier.py. The moderate, severe and
critical counts are accepted and ignored, exactly as in the source. -/
def _overall_health (healthy _moderate _severe _critical total : ℕ) : String :=
  if total = 0 then "No Data"
  else
    let healthy_pct : ℚ := (healthy : ℚ) / total
    if healthy_pct > 7/10 then "Good"
    else if healthy_pct > 5/10 then "Fair"
    else if healthy_pct > 3/10 then "Poor"
    else "Critical"

/-- An alert dict. The free-text message field (an f-string over the
inputs) is omitted; type, title and icon are kept. -/
structure Alert where
  type : String
  title : String
  icon : String
deriving DecidableEq, Repr

/-- soil sub-dict of the weather payload; moisture may be absent. -/
structure SoilData where
  moisture : Option ℚ
deriving DecidableEq, Repr

/-- current sub-dict of the weather payload; keys may be absent. -/
structure CurrentData where
  humidity_pct : Option ℚ
  temperature_c : Option ℚ
deriving DecidableEq, Repr

/-- The weather dict as consumed by _weather_correlated_alerts: the
soil and current sub-dicts may themselves be absent. -/
structure WeatherData where
  soil : Option SoilData
  current : Option CurrentData
deriving DecidableEq, Repr

/-- weather.get("soil", \x7b\x7d).get("moisture", 0.5). -/
def soilMoistureOf (w : WeatherData) : ℚ :=
  (w.soil.bind SoilData.moisture).getD (1/2)

/-- weather.get("current", \x7b\x7d).get("humidity_pct", 50). -/
def humidityOf (w : WeatherData) : ℚ :=
  (w.current.bind CurrentData.humidity_pct).getD 50

/-- weather.get("current", \x7b\x7d).get("temperature_c", 20). -/
def temperatureOf (w : WeatherData) : ℚ :=
  (w.current.bind CurrentData.temperature_c).getD 20

/-- _weather_correlated_alerts of health_classifier.py: the three
independent alert rules, appended in source order. -/
def _weather_correlated_alerts (pcts : Percentages) (weather : WeatherData) :
    List Alert :=
  let soil_moisture := soilMoistureOf weather
  let humidity := humidityOf weather
  let temp := temperatureOf weather
  (if soil_moisture < 1/5 ∧ pcts.severe_stress + pcts.critical > 30 then
    [{ type := "CRITICAL", title := "Drought Stress Detected", icon := "🚨" }]
  else []) ++
  (if humidity > 80 ∧ temp > 18 ∧ pcts.moderate_stress > 20 then
    [{ type := "WARNING", title := "Disease Risk Elevated", icon := "⚠️" }]
  else []) ++
  (if temp < 2 ∧ pcts.healthy > 30 then
    [{ type := "WARNING", title := "Frost Damage Risk", icon := "🥶" }]
  else [])

/-- A recommendation dict. The free-text detail field is omitted;
priority and action are kept. -/
structure Recommendation where
  priority : String
  action : String
deriving DecidableEq, Repr

/-- _generate_recommendations of health_classifier.py: four independent
threshold rules, then the fallback when the list is still empty. -/
def _generate_recommendations (pcts : Percentages) : List Recommendation :=
  let recs :=
    (if pcts.critical > 15 then
      [{ priority := "HIGH", action := "Field Inspection" }]
    else []) ++
    (if pcts.severe_stress > 25 then
      [{ priority := "HIGH", action := "Soil & Nutrient Test" }]
    else []) ++
    (if pcts.moderate_stress > 30 then
      [{ priority := "MEDIUM", action := "Targeted Treatment" }]
    else []) ++
    (if pcts.healthy > 70 then
      [{ priority := "LOW", action := "Routine Monitoring" }]
    else [])
  if recs.isEmpty then
    [{ priority := "MEDIUM", action := "Schedule Next Scan" }]
  else recs

/-- The dict returned by classify_health (timestamp and source path
omitted; the np.std field would be an irrational square root and is
omitted, no claim concerns it). -/
structure Classification where
  pixel_counts : PixelCounts
  percentages : Percentages
  ndvi_mean : ℚ
  ndvi_min : ℚ
  ndvi_max : ℚ
  overall_health : String
  alerts : List Alert
  recommendations : List Recommendation
deriving DecidableEq, Repr

/-- np.min over a list; none on an empty list, where numpy raises
ValueError (zero-size array to reduction operation). -/
def npMin : List ℚ → Option ℚ
  | [] => none
  | x :: xs => some (xs.foldl min x)

/-- np.max over a list; none on an empty list, where numpy raises. -/
def npMax : List ℚ → Option ℚ
  | [] => none
  | x :: xs => some (xs.foldl max x)

/-- np.mean over a list (nan on empty input in numpy; only used here
under the nonempty guard). -/
def npMean (l : List ℚ) : ℚ := l.sum / l.length

/-- classify_health of health_classifier.py over the in-memory NDVI
raster. The weather argument is some w when a truthy (non-empty)
weather dict is passed, none when the argument is None or empty (the
source guards with: if weather_data). Building overall_ndvi calls
np.min on the sentinel-filtered pixels, which raises on an empty
array; that exception is the .error branch. -/
def classify_health (ndvi : List ℚ) (weather_data : Option WeatherData) :
    Except String Classification :=
  let valid := validPixels ndvi
  let healthy := countQ isHealthy valid
  let moderate := countQ isModerate valid
  let severe := countQ isSevere valid
  let critical := countQ isCritical valid
  let total := valid.length
  let pcts : Percentages :=
    { healthy := if total > 0 then round1 ((healthy : ℚ) / total * 100) else 0
      moderate_stress := if total > 0 then round1 ((moderate : ℚ) / total * 100) else 0
      severe_stress := if total > 0 then round1 ((severe : ℚ) / total * 100) else 0
      critical := if total > 0 then round1 ((critical : ℚ) / total * 100) else 0 }
  match npMin valid, npMax valid with
  | some mn, some mx =>
    .ok
      { pixel_counts :=
          { healthy := healthy, moderate_stress := moderate
            severe_stress := severe, critical := critical, total := total }
        percentages := pcts
        ndvi_mean := npMean valid
        ndvi_min := mn
        ndvi_max := mx
        overall_health := _overall_health healthy moderate severe critical total
        alerts :=
          match weather_data with
          | some w => _weather_correlated_alerts pcts w
          | none => []
        recommendations := _generate_recommendations pcts }
  | _, _ =>
    .error "zero-size array to reduction operation minimum which has no identity"

/- ── ai_models/segmentation.py ── -/

/-- _classify_ndvi returns a dict with a class name and a color. -/
structure HealthClass where
  name : String
  color : String
deriving DecidableEq, Repr

/-- _classify_ndvi of segmentation.py. -/
def _classify_ndvi (ndvi_value : ℚ) : HealthClass :=
  if ndvi_value > NDVI_HEALTHY then ⟨"Healthy", "#2ecc71"⟩
  else if ndvi_value > NDVI_MODERATE then ⟨"Moderate Stress", "#f39c12"⟩
  else if ndvi_value > NDVI_SEVERE then ⟨"Severe Stress", "#e74c3c"⟩
  else ⟨"Critical", "#8e44ad"⟩

/-- A rasterio affine geo-transform: pixel (row, col) maps to
x = a*col + b*row + c, y = d*col + e*row + f. -/
structure Affine where
  a : ℚ
  b : ℚ
  c : ℚ
  d : ℚ
  e : ℚ
  f : ℚ
deriving DecidableEq, Repr

/-- rasterio.transform.xy(transform, row, col, offset="center"):
sample the affine map at the cell center (col + 1/2, row + 1/2). -/
def affineXY (t : Affine) (row col : ℚ) : ℚ × ℚ :=
  (t.a * (col + 1/2) + t.b * (row + 1/2) + t.c,
   t.d * (col + 1/2) + t.e * (row + 1/2) + t.f)

/-- The pixel coordinates carrying a given label in the labeled
component image (a list of rows, 0 = background), in row-major order
as numpy stores them. -/
def regionCoords (labeled : List (List ℕ)) (lab : ℕ) : List (ℕ × ℕ) :=
  (labeled.enum.map (fun rrow =>
    rrow.2.enum.filterMap (fun ccell =>
      if ccell.2 = lab then some (rrow.1, ccell.1) else none))).flatten

/-- Intensity-image lookup at a pixel coordinate (0 outside the grid;
regionprops only reads in-grid coordinates). -/
def intensityAt (ndvi : List (List ℚ)) (rc : ℕ × ℕ) : ℚ :=
  ((ndvi.get? rc.1).bind (fun r => r.get? rc.2)).getD 0

/-- One entry of skimage regionprops(labeled, intensity_image=ndvi):
the coordinates of the region and their intensities. -/
structure Region where
  label : ℕ
  coords : List (ℕ × ℕ)
  intens : List ℚ
deriving DecidableEq, Repr

def mkRegion (labeled : List (List ℕ)) (ndvi : List (List ℚ)) (lab : ℕ) :
    Region :=
  { label := lab
    coords := regionCoords labeled lab
    intens := (regionCoords labeled lab).map (intensityAt ndvi) }

/-- region.area: pixel count of the region. -/
def Region.area (reg : Region) : ℕ := reg.coords.length

def natsMin (l : List ℕ) : ℕ :=
  match l with
  | [] => 0
  | x :: xs => xs.foldl min x

def natsMax (l : List ℕ) : ℕ :=
  match l with
  | [] => 0
  | x :: xs => xs.foldl max x

/-- region.bbox of skimage: (min_row, min_col, max_row + 1, max_col + 1),
the half-open bounding box. -/
def Region.bbox (reg : Region) : ℕ × ℕ × ℕ × ℕ :=
  (natsMin (reg.coords.map Prod.fst), natsMin (reg.coords.map Prod.snd),
   natsMax (reg.coords.map Prod.fst) + 1, natsMax (reg.coords.map Prod.snd) + 1)

/-- ndimage.label yields labels 1 .. n_features; n_features is the
largest label present in the labeled image. -/
def nFeatures (labeled : List (List ℕ)) : ℕ :=
  (labeled.map (fun r => r.foldl max 0)).foldl max 0

/-- The geographic bounding box of a plot as stored by segment_plots. -/
structure BBoxGeo where
  south : ℚ
  west : ℚ
  north : ℚ
  east : ℚ
deriving DecidableEq, Repr

/-- One plot dict of segment_plots. The skimage shape descriptors
(eccentricity, solidity) are library-computed geometry and are
omitted; no claim concerns them. -/
structure Plot where
  id : ℕ
  area_pixels : ℕ
  bbox_geo : BBoxGeo
  centroid_row : ℤ
  centroid_col : ℤ
  ndvi_mean : ℚ
  ndvi_min : ℚ
  ndvi_max : ℚ
  health_class : String
  health_color : String
deriving DecidableEq, Repr

/-- Build the plot dict from a region, as the loop body of
segment_plots does: geo_min = xy(maxr, minc), geo_max = xy(minr, maxc),
then south/west from geo_min and north/east from geo_max; the centroid
is truncated with int() (coordinates are nonnegative, so floor). -/
def mkPlot (t : Affine) (reg : Region) : Plot :=
  let bb := reg.bbox
  let minr := bb.1
  let minc := bb.2.1
  let maxr := bb.2.2.1
  let maxc := bb.2.2.2
  let geo_min := affineXY t (maxr : ℚ) (minc : ℚ)
  let geo_max := affineXY t (minr : ℚ) (maxc : ℚ)
  let mean_ndvi := npMean reg.intens
  let hc := _classify_ndvi mean_ndvi
  { id := reg.label
    area_pixels := reg.area
    bbox_geo :=
      { south := geo_min.2, west := geo_min.1
        north := geo_max.2, east := geo_max.1 }
    centroid_row := ⌊((reg.coords.map Prod.fst).sum : ℚ) / reg.coords.length⌋
    centroid_col := ⌊((reg.coords.map Prod.snd).sum : ℚ) / reg.coords.length⌋
    ndvi_mean := mean_ndvi
    ndvi_min := (npMin reg.intens).getD 0
    ndvi_max := (npMax reg.intens).getD 0
    health_class := hc.name
    health_color := hc.color }

/-- _summarize_plots returns a one-key dict (total 0) on an empty plot
list and the full summary dict otherwise; the two shapes are the two
constructors. -/
inductive PlotSummary where
  | empty : PlotSummary
  | full (total_plots healthy_count moderate_stress_count
      severe_stress_count critical_count : ℕ)
      (overall_mean_ndvi : ℚ) (overall_health : String) : PlotSummary
deriving DecidableEq, Repr

def _summarize_plots (plots : List Plot) : PlotSummary :=
  if plots.isEmpty then .empty
  else
    let classes := plots.map Plot.health_class
    let ndvi_values := plots.map Plot.ndvi_mean
    .full plots.length (classes.count "Healthy") (classes.count "Moderate Stress")
      (classes.count "Severe Stress") (classes.count "Critical")
      (npMean ndvi_values) (_classify_ndvi (npMean ndvi_values)).name

/-- The dict returned by segment_plots (timestamp and source path
omitted). -/
structure SegmentationResult where
  crs : String
  total_plots : ℕ
  plots : List Plot
  summary : PlotSummary
  segmentation_mask_shape : List ℕ
deriving DecidableEq, Repr

/-- segment_plots of segmentation.py. The vegetation mask, the
morphological opening/closing and ndimage.label are scipy/skimage
library calls; their output is taken here as the labeled component
image (labels 1 .. n_features, 0 background), so the theorems below
quantify over every possible labeled image and hence over every input
raster. regionprops iterates the labels in ascending order; the loop
skips a region when region.area < min_plot_area. -/
def segment_plots (labeled : List (List ℕ)) (ndvi : List (List ℚ))
    (t : Affine) (crs : String) (min_plot_area : ℕ) : SegmentationResult :=
  let regions := (List.range (nFeatures labeled)).map
    (fun i => mkRegion labeled ndvi (i + 1))
  let plots := regions.filterMap
    (fun reg => if reg.area < min_plot_area then none else some (mkPlot t reg))
  { crs := crs
    total_plots := plots.length
    plots := plots
    summary := _summarize_plots plots
    segmentation_mask_shape := [labeled.length, (labeled.headD []).length] }

/-- The properties dict of one GeoJSON feature. -/
structure FeatureProperties where
  plot_id : ℕ
  health_class : String
  health_color : String
  mean_ndvi : ℚ
  area_pixels : ℕ
deriving DecidableEq, Repr

/-- One GeoJSON feature: a Polygon geometry (a list of rings, each a
list of x-y positions) plus properties. -/
structure Feature where
  geometry_type : String
  coordinates : List (List (ℚ × ℚ))
  properties : FeatureProperties
deriving DecidableEq, Repr

structure FeatureCollection where
  features : List Feature
deriving DecidableEq, Repr

/-- plots_to_geojson of segmentation.py: one bounding-box polygon
feature per plot, in list order. -/
def plots_to_geojson (segmentation_result : SegmentationResult) :
    FeatureCollection :=
  { features := segmentation_result.plots.map (fun plot =>
      let bbox := plot.bbox_geo
      { geometry_type := "Polygon"
        coordinates := [[(bbox.west, bbox.south), (bbox.east, bbox.south),
          (bbox.east, bbox.north), (bbox.west, bbox.north),
          (bbox.west, bbox.south)]]
        properties :=
          { plot_id := plot.id
            health_class := plot.health_class
            health_color := plot.health_color
            mean_ndvi := plot.ndvi_mean
            area_pixels := plot.area_pixels } }) }

/- ── data_ingestion/pipeline_scheduler.py: run_pipeline ── -/

/-- What the NDVI step contributes to the success payload. -/
structure NdviStepOutcome where
  mean : ℚ
deriving DecidableEq, Repr

/-- What the classification step contributes to the success payload. -/
structure ClassifyStepOutcome where
  overall_health : String
  alerts : List Alert
deriving DecidableEq, Repr

/-- What the segmentation step contributes to the success payload. -/
structure SegmentStepOutcome where
  total_plots : ℕ
deriving DecidableEq, Repr

/-- The outcome of each step inside the try block of run_pipeline, in
source order. Each step either returns a value or raises (the .error
carries str(e)); the adjacent database inserts are folded into their
step. -/
structure StepResults where
  ingest : Except String Unit
  weather : Except String Unit
  ndvi : Except String NdviStepOutcome
  ndvi_rgb : Except String Unit
  rgb_composite : Except String Unit
  classify : Except String ClassifyStepOutcome
  seg : Except String SegmentStepOutcome
  write_geojson : Except String Unit
deriving Repr

/-- Sequencing of the try block: Python propagates the first raised
exception, so later steps do not run once one fails. -/
def runSteps (s : StepResults) :
    Except String (NdviStepOutcome × ClassifyStepOutcome × SegmentStepOutcome) := do
  let _ ← s.ingest
  let _ ← s.weather
  let n ← s.ndvi
  let _ ← s.ndvi_rgb
  let _ ← s.rgb_composite
  let cl ← s.classify
  let sg ← s.seg
  let _ ← s.write_geojson
  pure (n, cl, sg)

/-- The dict run_pipeline returns: the completed shape and the failed
shape have different keys, hence two constructors. -/
inductive RunPayload where
  | completed (run_id : ℕ) (processing_time_s : ℚ) (ndvi_mean : ℚ)
      (overall_health : String) (plots_found : ℕ) (alerts : List Alert) :
      RunPayload
  | failed (error : String) (run_id : ℕ) : RunPayload
deriving DecidableEq, Repr

/-- The pipeline_runs row as completed by db.complete_pipeline_run. -/
structure RunRecord where
  run_id : ℕ
  status : String
  processing_time : ℚ
  error : Option String
deriving DecidableEq, Repr

/-- run_pipeline of pipeline_scheduler.py: the try block runs the steps
in order; on success the run is completed and the aggregate payload
returned; on any exception the except-branch records elapsed time and
str(e) in the run row and returns the structured failure payload
(the exception is not re-raised: both branches return normally).
Wall-clock elapsed time is passed in as a value. -/
def run_pipeline (s : StepResults) (run_id : ℕ) (elapsed : ℚ) :
    RunPayload × RunRecord :=
  match runSteps s with
  | .ok (n, cl, sg) =>
    (.completed run_id (round1 elapsed) n.mean cl.overall_health
       sg.total_plots cl.alerts,
     { run_id := run_id, status := "completed", processing_time := elapsed
       error := none })
  | .error e =>
    (.failed e run_id,
     { run_id := run_id, status := "failed", processing_time := elapsed
       error := some e })

/-- Does a step result represent a normally returning step? -/
def stepOk {α : Type} : Except String α → Bool
  | .ok _ => true
  | .error _ => false

/-- All eight steps of the try block return normally. -/
def allStepsOk (s : StepResults) : Bool :=
  stepOk s.ingest && stepOk s.weather && stepOk s.ndvi && stepOk s.ndvi_rgb &&
  stepOk s.rgb_composite && stepOk s.classify && stepOk s.seg &&
  stepOk s.write_geojson

/- ══ Helper lemmas ══ -/

theorem NDVI_HEALTHY_eq : NDVI_HEALTHY = 6/10 := rfl

theorem NDVI_MODERATE_eq : NDVI_MODERATE = 3/10 := rfl

theorem NDVI_SEVERE_eq : NDVI_SEVERE = 1/10 := rfl

/-- The clip step keeps its value inside the clamp interval. -/
theorem clip_mem (lo hi x : ℚ) (h : lo ≤ hi) :
    lo ≤ clip lo hi x ∧ clip lo hi x ≤ hi := by
  unfold clip
  split_ifs with h1 h2 <;> constructor <;> linarith

/-- Every computed NDVI value is between -1 and 1. -/
theorem mem_ndvi_bounds (img : List BandPixel) :
    ∀ v ∈ calculate_ndvi_raster img, -1 ≤ v ∧ v ≤ 1 := by
  intro v hv
  simp only [calculate_ndvi_raster, List.mem_map] at hv
  obtain ⟨p, _, rfl⟩ := hv
  exact clip_mem (-1) 1 (ndviRaw p) (by norm_num)

/-- The sentinel filter keeps every computed NDVI pixel. -/
theorem validPixels_calc (img : List BandPixel) :
    validPixels (calculate_ndvi_raster img) = calculate_ndvi_raster img := by
  rw [validPixels, List.filter_eq_self]
  intro v hv
  have := (mem_ndvi_bounds img v hv).1
  simp only [decide_eq_true_eq]
  linarith

/-- The sentinel value never occurs in the computed NDVI raster. -/
theorem sentinel_not_mem (img : List BandPixel) :
    (-9999 : ℚ) ∉ calculate_ndvi_raster img := by
  intro hmem9
  have := (mem_ndvi_bounds img _ hmem9).1
  linarith

theorem isHealthy_true {x : ℚ} (h : NDVI_HEALTHY < x) : isHealthy x = true :=
  decide_eq_true h

theorem isHealthy_false {x : ℚ} (h : ¬ NDVI_HEALTHY < x) : isHealthy x = false :=
  decide_eq_false h

theorem isModerate_true {x : ℚ} (h1 : NDVI_MODERATE < x) (h2 : x ≤ NDVI_HEALTHY) :
    isModerate x = true := by
  show (decide (NDVI_MODERATE < x) && decide (x ≤ NDVI_HEALTHY)) = true
  rw [decide_eq_true h1, decide_eq_true h2]
  rfl

theorem isModerate_false_low {x : ℚ} (h : ¬ NDVI_MODERATE < x) :
    isModerate x = false := by
  show (decide (NDVI_MODERATE < x) && decide (x ≤ NDVI_HEALTHY)) = false
  rw [decide_eq_false h]
  rfl

theorem isModerate_false_high {x : ℚ} (h : ¬ x ≤ NDVI_HEALTHY) :
    isModerate x = false := by
  show (decide (NDVI_MODERATE < x) && decide (x ≤ NDVI_HEALTHY)) = false
  rw [decide_eq_false h, Bool.and_false]

theorem isSevere_true {x : ℚ} (h1 : NDVI_SEVERE < x) (h2 : x ≤ NDVI_MODERATE) :
    isSevere x = true := by
  show (decide (NDVI_SEVERE < x) && decide (x ≤ NDVI_MODERATE)) = true
  rw [decide_eq_true h1, decide_eq_true h2]
  rfl

theorem isSevere_false_low {x : ℚ} (h : ¬ NDVI_SEVERE < x) :
    isSevere x = false := by
  show (decide (NDVI_SEVERE < x) && decide (x ≤ NDVI_MODERATE)) = false
  rw [decide_eq_false h]
  rfl

theorem isSevere_false_high {x : ℚ} (h : ¬ x ≤ NDVI_MODERATE) :
    isSevere x = false := by
  show (decide (NDVI_SEVERE < x) && decide (x ≤ NDVI_MODERATE)) = false
  rw [decide_eq_false h, Bool.and_false]

theorem isCritical_true {x : ℚ} (h : x ≤ NDVI_SEVERE) : isCritical x = true :=
  decide_eq_true h

theorem isCritical_false {x : ℚ} (h : ¬ x ≤ NDVI_SEVERE) : isCritical x = false :=
  decide_eq_false h

/- ══ Theorems for the claims ══ -/

/-- C1: every value of the NDVI raster computed by calculate_ndvi lies in
the closed interval from -1 to 1 (the per-pixel result is clamped), and
the -9999 sentinel never participates in the statistics: the sentinel
filter valid = ndvi[ndvi > -9999] keeps every computed pixel, and the
sentinel value itself never occurs in the computed raster. -/
theorem calculate_ndvi_clamped_and_sentinel_free (img : List BandPixel) :
    (∀ v ∈ calculate_ndvi_raster img, -1 ≤ v ∧ v ≤ 1) ∧
    validPixels (calculate_ndvi_raster img) = calculate_ndvi_raster img ∧
    (-9999 : ℚ) ∉ calculate_ndvi_raster img :=
  ⟨mem_ndvi_bounds img, validPixels_calc img, sentinel_not_mem img⟩

/-- Witness for C1 at a concrete raster. -/
theorem calculate_ndvi_clamped_witness :
    -1 ≤ ndviPixel ⟨2000, 8000⟩ ∧ ndviPixel ⟨2000, 8000⟩ ≤ 1 :=
  (calculate_ndvi_clamped_and_sentinel_free [⟨2000, 8000⟩]).1
    (ndviPixel ⟨2000, 8000⟩) (by simp [calculate_ndvi_raster])

/-- Every rational value falls in exactly one of the four health
classes used by the statistics of calculate_ndvi. -/
theorem class_partition (x : ℚ) :
    (if isHealthy x then (1 : ℕ) else 0) + (if isModerate x then 1 else 0) +
      (if isSevere x then 1 else 0) + (if isCritical x then 1 else 0) = 1 := by
  rcases le_or_lt x (1/10) with hA | hA
  · rw [isHealthy_false (by rw [NDVI_HEALTHY_eq]; intro h; linarith),
      isModerate_false_low (by rw [NDVI_MODERATE_eq]; intro h; linarith),
      isSevere_false_low (by rw [NDVI_SEVERE_eq]; intro h; linarith),
      isCritical_true (by rw [NDVI_SEVERE_eq]; linarith)]
    simp
  · rcases le_or_lt x (3/10) with hB | hB
    · rw [isHealthy_false (by rw [NDVI_HEALTHY_eq]; intro h; linarith),
        isModerate_false_low (by rw [NDVI_MODERATE_eq]; intro h; linarith),
        isSevere_true (by rw [NDVI_SEVERE_eq]; linarith)
          (by rw [NDVI_MODERATE_eq]; linarith),
        isCritical_false (by rw [NDVI_SEVERE_eq]; intro h; linarith)]
      simp
    · rcases le_or_lt x (6/10) with hC | hC
      · rw [isHealthy_false (by rw [NDVI_HEALTHY_eq]; intro h; linarith),
          isModerate_true (by rw [NDVI_MODERATE_eq]; linarith)
            (by rw [NDVI_HEALTHY_eq]; linarith),
          isSevere_false_high (by rw [NDVI_MODERATE_eq]; intro h; linarith),
          isCritical_false (by rw [NDVI_SEVERE_eq]; intro h; linarith)]
        simp
      · rw [isHealthy_true (by rw [NDVI_HEALTHY_eq]; linarith),
          isModerate_false_high (by rw [NDVI_HEALTHY_eq]; intro h; linarith),
          isSevere_false_high (by rw [NDVI_MODERATE_eq]; intro h; linarith),
          isCritical_false (by rw [NDVI_SEVERE_eq]; intro h; linarith)]
        simp

/-- The four class counters add up to the number of valid pixels. -/
theorem countQ_partition (l : List ℚ) :
    countQ isHealthy l + countQ isModerate l + countQ isSevere l +
      countQ isCritical l = l.length := by
  induction l with
  | nil => rfl
  | cons x xs ih =>
    simp only [countQ, List.countP_cons, List.length_cons] at *
    have hx := class_partition x
    omega

/-- C2: whenever total_pixels > 0, the four class percentages of the
calculate_ndvi statistics sum to exactly 100 (so certainly to 100
within 0.1): the four classes are disjoint half-open intervals covering
every value. -/
theorem stats_percentages_sum (valid : List ℚ) (h : 0 < valid.length) :
    (statsOf valid).healthy_pct + (statsOf valid).moderate_stress_pct +
      (statsOf valid).severe_stress_pct + (statsOf valid).critical_pct = 100 ∧
    |(statsOf valid).healthy_pct + (statsOf valid).moderate_stress_pct +
      (statsOf valid).severe_stress_pct + (statsOf valid).critical_pct - 100|
      ≤ 1/10 := by
  have hsum : (statsOf valid).healthy_pct + (statsOf valid).moderate_stress_pct +
      (statsOf valid).severe_stress_pct + (statsOf valid).critical_pct = 100 := by
    simp only [statsOf]
    have hn : (valid.length : ℚ) ≠ 0 := by
      exact_mod_cast Nat.pos_iff_ne_zero.mp h
    have hcount := countQ_partition valid
    field_simp
    push_cast [← hcount]
    ring
  refine ⟨hsum, ?_⟩
  rw [hsum]
  norm_num

/-- Witness for C2 at a concrete one-pixel raster. -/
theorem stats_percentages_sum_witness :
    (statsOf [1/2]).healthy_pct + (statsOf [1/2]).moderate_stress_pct +
      (statsOf [1/2]).severe_stress_pct + (statsOf [1/2]).critical_pct = 100 :=
  (stats_percentages_sum [1/2] (by simp)).1

/-- C4: NIR = 8000, Red = 2000 yields index 6000/10000 = 0.6, exactly
the Healthy threshold; the Healthy test is strict, so the pixel counts
as Moderate Stress, not Healthy. -/
theorem boundary_pixel_is_moderate :
    ndviPixel ⟨2000, 8000⟩ = 3/5 ∧ (3/5 : ℚ) = NDVI_HEALTHY ∧
    isHealthy (3/5) = false ∧ isModerate (3/5) = true ∧
    (calculate_ndvi_stats [⟨2000, 8000⟩]).healthy_pct = 0 ∧
    (calculate_ndvi_stats [⟨2000, 8000⟩]).moderate_stress_pct = 100 := by
  have hpix : ndviPixel ⟨2000, 8000⟩ = 3/5 := by
    norm_num [ndviPixel, ndviRaw, clip]
  have hH : isHealthy (3/5) = false :=
    isHealthy_false (by rw [NDVI_HEALTHY_eq]; norm_num)
  have hM : isModerate (3/5) = true :=
    isModerate_true (by rw [NDVI_MODERATE_eq]; norm_num)
      (by rw [NDVI_HEALTHY_eq]; norm_num)
  have hraster : calculate_ndvi_raster [⟨2000, 8000⟩] = [3/5] := by
    simp only [calculate_ndvi_raster, List.map_cons, List.map_nil, hpix]
  have hvalid : validPixels (calculate_ndvi_raster [⟨2000, 8000⟩]) = [3/5] := by
    rw [validPixels_calc, hraster]
  refine ⟨hpix, by rw [NDVI_HEALTHY_eq]; norm_num, hH, hM, ?_, ?_⟩ <;>
  · simp only [calculate_ndvi_stats, hvalid, statsOf, countQ,
      List.countP_cons, List.countP_nil, hH, hM, List.length_singleton]
    norm_num

/-- C5, counterexample: at Red = 1, NIR = -3 the denominator is -2,
nonzero, yet the computed pixel is the 0 fallback rather than the
formula value 2 (or its clamp 1): the guard in the source is
denominator > 0, not denominator nonzero. -/
theorem ndvi_zero_guard_counterexample :
    ((-3 : ℚ) + 1 ≠ 0) ∧ ndviRaw ⟨1, -3⟩ = 0 ∧
    (((-3 : ℚ) - 1) / ((-3) + 1) = 2) ∧ ndviPixel ⟨1, -3⟩ = 0 := by
  norm_num [ndviRaw, ndviPixel, clip]

/-- C5 (amended): each pixel of the computed raster is
(NIR - Red) / (NIR + Red) when the denominator is positive and the
fallback 0 otherwise (zero and negative denominators alike), and the
computed raster never contains the -9999 sentinel. -/
theorem ndvi_formula_and_no_sentinel (p : BandPixel) (img : List BandPixel) :
    (0 < p.nir + p.red → ndviRaw p = (p.nir - p.red) / (p.nir + p.red)) ∧
    (¬ 0 < p.nir + p.red → ndviRaw p = 0) ∧
    (-9999 : ℚ) ∉ calculate_ndvi_raster img := by
  refine ⟨?_, ?_, (calculate_ndvi_clamped_and_sentinel_free img).2.2⟩ <;>
    intro h <;> simp [ndviRaw, h]

/-- Witness for C5 (amended) at a concrete pixel. -/
theorem ndvi_formula_and_no_sentinel_witness :
    ndviRaw ⟨2000, 8000⟩ = ((8000 : ℚ) - 2000) / (8000 + 2000) :=
  (ndvi_formula_and_no_sentinel ⟨2000, 8000⟩ []).1 (by norm_num)

/-- C3: on a raster with zero valid pixels (every cell is the -9999
sentinel) classify_health raises from the empty np.min reduction instead
of returning the well-formed result the spec describes; the total = 0
branches of the same function (label No Data, percentages 0) show the
intended behavior that is never reached. -/
theorem classify_health_empty_raises :
    classify_health [-9999, -9999] none =
      .error "zero-size array to reduction operation minimum which has no identity" ∧
    validPixels [-9999, -9999] = [] ∧
    _overall_health 0 0 0 0 0 = "No Data" := by
  have hvalid : validPixels [(-9999 : ℚ), -9999] = [] := by
    rw [validPixels, List.filter_cons_of_neg, List.filter_cons_of_neg,
      List.filter_nil] <;> simp
  refine ⟨?_, hvalid, rfl⟩
  simp only [classify_health, hvalid, npMin, npMax]

/-- C8: the recommendation list of the classifier is never empty: the
four threshold rules fire independently, and when none fires the
fallback is exactly one MEDIUM Schedule Next Scan entry. -/
theorem recommendations_never_empty (pcts : Percentages) :
    _generate_recommendations pcts ≠ [] ∧
    (pcts.critical > 15 →
      ({ priority := "HIGH", action := "Field Inspection" } : Recommendation) ∈
        _generate_recommendations pcts) ∧
    (pcts.severe_stress > 25 →
      ({ priority := "HIGH", action := "Soil & Nutrient Test" } : Recommendation) ∈
        _generate_recommendations pcts) ∧
    (pcts.moderate_stress > 30 →
      ({ priority := "MEDIUM", action := "Targeted Treatment" } : Recommendation) ∈
        _generate_recommendations pcts) ∧
    (pcts.healthy > 70 →
      ({ priority := "LOW", action := "Routine Monitoring" } : Recommendation) ∈
        _generate_recommendations pcts) ∧
    (¬ pcts.critical > 15 → ¬ pcts.severe_stress > 25 →
      ¬ pcts.moderate_stress > 30 → ¬ pcts.healthy > 70 →
      _generate_recommendations pcts =
        [{ priority := "MEDIUM", action := "Schedule Next Scan" }]) := by
  unfold _generate_recommendations
  split_ifs with h1 h2 h3 h4 <;> simp_all

/-- Witness for C8 at the all-zero percentage breakdown. -/
theorem recommendations_never_empty_witness :
    _generate_recommendations ⟨0, 0, 0, 0⟩ =
      [{ priority := "MEDIUM", action := "Schedule Next Scan" }] :=
  (recommendations_never_empty ⟨0, 0, 0, 0⟩).2.2.2.2.2
    (by norm_num) (by norm_num) (by norm_num) (by norm_num)

/-- C10, counterexample: a supplied weather dict that lacks the soil
moisture and temperature keys (but has humidity 90) still yields a
non-empty alert list: the default temperature 20 satisfies the
temp > 18 part of the disease-risk rule, so with moderate stress above
20 percent the WARNING fires. The claim that a dict lacking any of the
three keys yields an empty alert list is therefore false. -/
theorem weather_defaults_counterexample :
    ((⟨none, some ⟨some 90, none⟩⟩ : WeatherData).soil.bind SoilData.moisture
      = none) ∧
    ((⟨none, some ⟨some 90, none⟩⟩ : WeatherData).current.bind
      CurrentData.temperature_c = none) ∧
    _weather_correlated_alerts ⟨40, 25, 20, 15⟩ ⟨none, some ⟨some 90, none⟩⟩ =
      [{ type := "WARNING", title := "Disease Risk Elevated", icon := "⚠️" }] ∧
    _weather_correlated_alerts ⟨40, 25, 20, 15⟩ ⟨none, some ⟨some 90, none⟩⟩
      ≠ [] := by
  have hs : soilMoistureOf ⟨none, some ⟨some 90, none⟩⟩ = 1/2 := rfl
  have hh : humidityOf ⟨none, some ⟨some 90, none⟩⟩ = 90 := rfl
  have ht : temperatureOf ⟨none, some ⟨some 90, none⟩⟩ = 20 := rfl
  have halerts : _weather_correlated_alerts ⟨40, 25, 20, 15⟩
      ⟨none, some ⟨some 90, none⟩⟩ =
      [{ type := "WARNING", title := "Disease Risk Elevated", icon := "⚠️" }] := by
    unfold _weather_correlated_alerts
    rw [hs, hh, ht]
    norm_num
  exact ⟨rfl, rfl, halerts, by rw [halerts]; simp⟩

/-- C10 (amended): a weather dict with missing keys never makes
classification fail; the missing keys default to soil moisture 0.5,
humidity 50 and temperature 20, and when all three keys are absent none
of the three alert conditions fires, so the alert list is empty for
every percentage breakdown (a dict missing only some of the keys can
still alert, since the default temperature 20 satisfies the
temp > 18 part of the disease-risk rule). -/
theorem weather_missing_keys_defaults (w : WeatherData)
    (h1 : w.soil.bind SoilData.moisture = none)
    (h2 : w.current.bind CurrentData.humidity_pct = none)
    (h3 : w.current.bind CurrentData.temperature_c = none) :
    soilMoistureOf w = 1/2 ∧ humidityOf w = 50 ∧ temperatureOf w = 20 ∧
    (∀ pcts : Percentages, _weather_correlated_alerts pcts w = []) ∧
    (∀ ndvi : List ℚ, ∀ c : Classification,
      classify_health ndvi (some w) = .ok c → c.alerts = []) := by
  have hs : soilMoistureOf w = 1/2 := by rw [soilMoistureOf, h1]; rfl
  have hh : humidityOf w = 50 := by rw [humidityOf, h2]; rfl
  have ht : temperatureOf w = 20 := by rw [temperatureOf, h3]; rfl
  have halerts : ∀ pcts : Percentages, _weather_correlated_alerts pcts w = [] := by
    intro pcts
    unfold _weather_correlated_alerts
    rw [hs, hh, ht]
    norm_num
  refine ⟨hs, hh, ht, halerts, ?_⟩
  intro ndvi c hc
  unfold classify_health at hc
  cases hv : validPixels ndvi with
  | nil =>
    rw [hv] at hc
    simp only [npMin, npMax] at hc
    exact Except.noConfusion hc
  | cons x xs =>
    rw [hv] at hc
    simp only [npMin, npMax] at hc
    cases hc
    exact halerts _

/-- Witness for C10 (amended) at a weather dict with no keys at all. -/
theorem weather_missing_keys_defaults_witness :
    _weather_correlated_alerts ⟨0, 0, 0, 0⟩ ⟨none, none⟩ = [] :=
  (weather_missing_keys_defaults ⟨none, none⟩ rfl rfl rfl).2.2.2.1 ⟨0, 0, 0, 0⟩

theorem except_bind_ok {α β : Type} (x : α) (f : α → Except String β) :
    ((Except.ok x : Except String α) >>= f) = f x := rfl

theorem except_bind_err {α β : Type} (e : String) (f : α → Except String β) :
    ((Except.error e : Except String α) >>= f) = .error e := rfl

/-- A step raising is exactly the situation in which the sequenced try
block yields an error. -/
theorem steps_error_iff (s : StepResults) :
    (∃ e, runSteps s = .error e) ↔ allStepsOk s = false := by
  rcases s with ⟨i, w, n, r, g, cl, sg, wj⟩
  cases i with
  | error e => simp [runSteps, allStepsOk, stepOk, except_bind_err]
  | ok vi =>
  cases w with
  | error e => simp [runSteps, allStepsOk, stepOk, except_bind_ok, except_bind_err]
  | ok vw =>
  cases n with
  | error e => simp [runSteps, allStepsOk, stepOk, except_bind_ok, except_bind_err]
  | ok vn =>
  cases r with
  | error e => simp [runSteps, allStepsOk, stepOk, except_bind_ok, except_bind_err]
  | ok vr =>
  cases g with
  | error e => simp [runSteps, allStepsOk, stepOk, except_bind_ok, except_bind_err]
  | ok vg =>
  cases cl with
  | error e => simp [runSteps, allStepsOk, stepOk, except_bind_ok, except_bind_err]
  | ok vcl =>
  cases sg with
  | error e => simp [runSteps, allStepsOk, stepOk, except_bind_ok, except_bind_err]
  | ok vsg =>
  cases wj with
  | error e => simp [runSteps, allStepsOk, stepOk, except_bind_ok, except_bind_err]
  | ok vwj => simp [runSteps, allStepsOk, stepOk, except_bind_ok]

/-- C6: when a step of the try block raises, run_pipeline returns the
structured failure payload (status failed, the error message, the run
id) instead of re-raising, and the run row records elapsed time and the
message; moreover a step failing is exactly the situation in which the
step sequence yields an error. -/
theorem run_pipeline_failure (s : StepResults) (run_id : ℕ) (elapsed : ℚ)
    (e : String) (h : runSteps s = .error e) :
    run_pipeline s run_id elapsed =
      (.failed e run_id,
       { run_id := run_id, status := "failed", processing_time := elapsed,
         error := some e }) ∧
    (∀ s' : StepResults,
      (∃ e', runSteps s' = .error e') ↔ allStepsOk s' = false) := by
  refine ⟨?_, fun s' => steps_error_iff s'⟩
  rw [run_pipeline, h]

/-- Witness for C6: a concrete run whose weather step raises. -/
theorem run_pipeline_failure_witness :
    run_pipeline
      { ingest := .ok (), weather := .error "boom", ndvi := .ok ⟨0⟩,
        ndvi_rgb := .ok (), rgb_composite := .ok (),
        classify := .ok ⟨"Good", []⟩, seg := .ok ⟨0⟩, write_geojson := .ok () }
      7 5 =
      (.failed "boom" 7,
       { run_id := 7, status := "failed", processing_time := 5,
         error := some "boom" }) :=
  (run_pipeline_failure
    { ingest := .ok (), weather := .error "boom", ndvi := .ok ⟨0⟩,
      ndvi_rgb := .ok (), rgb_composite := .ok (),
      classify := .ok ⟨"Good", []⟩, seg := .ok ⟨0⟩, write_geojson := .ok () }
    7 5 "boom" rfl).1

theorem mkPlot_area (t : Affine) (reg : Region) :
    (mkPlot t reg).area_pixels = reg.area := rfl

theorem mkPlot_id (t : Affine) (reg : Region) :
    (mkPlot t reg).id = reg.label := rfl

theorem mkRegion_label (labeled : List (List ℕ)) (ndvi : List (List ℚ))
    (lab : ℕ) : (mkRegion labeled ndvi lab).label = lab := rfl

theorem segment_plots_plots (labeled : List (List ℕ)) (ndvi : List (List ℚ))
    (t : Affine) (crs : String) (m : ℕ) :
    (segment_plots labeled ndvi t crs m).plots =
      ((List.range (nFeatures labeled)).map
        (fun i => mkRegion labeled ndvi (i + 1))).filterMap
        (fun reg => if reg.area < m then none else some (mkPlot t reg)) := rfl

/-- Each id in the filtered plot list comes from the label list fed to
the region builder. -/
theorem plot_ids_sub (labeled : List (List ℕ)) (ndvi : List (List ℚ))
    (t : Affine) (m : ℕ) (l : List ℕ) (x : ℕ)
    (hx : x ∈ ((l.map (mkRegion labeled ndvi)).filterMap
      (fun reg => if reg.area < m then none else some (mkPlot t reg))).map
        Plot.id) :
    x ∈ l := by
  rw [List.mem_map] at hx
  obtain ⟨p, hp, rfl⟩ := hx
  rw [List.mem_filterMap] at hp
  obtain ⟨reg, hregmem, hreg⟩ := hp
  by_cases harea : reg.area < m
  · rw [if_pos harea] at hreg
    exact Option.noConfusion hreg
  · rw [if_neg harea] at hreg
    have hpe := Option.some.inj hreg
    subst hpe
    rw [List.mem_map] at hregmem
    obtain ⟨lab, hlabmem, rfl⟩ := hregmem
    rw [mkPlot_id, mkRegion_label]
    exact hlabmem

/-- Filtering regions by area keeps the plot ids strictly sorted when
the underlying label list is. -/
theorem plot_ids_sorted_aux (labeled : List (List ℕ)) (ndvi : List (List ℚ))
    (t : Affine) (m : ℕ) :
    ∀ l : List ℕ, l.Sorted (· < ·) →
    (((l.map (mkRegion labeled ndvi)).filterMap
      (fun reg => if reg.area < m then none else some (mkPlot t reg))).map
        Plot.id).Sorted (· < ·) := by
  intro l
  induction l with
  | nil => intro _; simp
  | cons a as ih =>
    intro hl
    rw [List.sorted_cons] at hl
    obtain ⟨ha, has⟩ := hl
    rw [List.map_cons, List.filterMap_cons]
    by_cases harea : (mkRegion labeled ndvi a).area < m
    · rw [if_pos harea]
      exact ih has
    · rw [if_neg harea]
      refine List.sorted_cons.mpr ⟨?_, ih has⟩
      intro b hb
      rw [mkPlot_id, mkRegion_label]
      exact ha b (plot_ids_sub labeled ndvi t m as b hb)

/-- C7: every plot returned by segment_plots has pixel area at least
min_plot_area; a region whose area is below the threshold contributes
no plot at all (no plot carries its label); and the plot list is
ordered by strictly ascending label id. -/
theorem segment_plots_area_and_order (labeled : List (List ℕ))
    (ndvi : List (List ℚ)) (t : Affine) (crs : String) (m : ℕ) :
    (∀ p ∈ (segment_plots labeled ndvi t crs m).plots, m ≤ p.area_pixels) ∧
    (∀ lab : ℕ, (mkRegion labeled ndvi lab).area < m →
      ∀ p ∈ (segment_plots labeled ndvi t crs m).plots, p.id ≠ lab) ∧
    ((segment_plots labeled ndvi t crs m).plots.map Plot.id).Sorted (· < ·) := by
  refine ⟨?_, ?_, ?_⟩
  · intro p hp
    rw [segment_plots_plots, List.mem_filterMap] at hp
    obtain ⟨reg, _, hreg⟩ := hp
    by_cases harea : reg.area < m
    · rw [if_pos harea] at hreg
      exact Option.noConfusion hreg
    · rw [if_neg harea] at hreg
      have hpe := Option.some.inj hreg
      subst hpe
      rw [mkPlot_area]
      omega
  · intro lab hlab p hp hid
    rw [segment_plots_plots, List.mem_filterMap] at hp
    obtain ⟨reg, hregmem, hreg⟩ := hp
    by_cases harea : reg.area < m
    · rw [if_pos harea] at hreg
      exact Option.noConfusion hreg
    · rw [if_neg harea] at hreg
      have hpe := Option.some.inj hreg
      subst hpe
      rw [List.mem_map] at hregmem
      obtain ⟨i, _, rfl⟩ := hregmem
      rw [mkPlot_id, mkRegion_label] at hid
      subst hid
      exact harea hlab
  · rw [segment_plots_plots]
    have hcomp : (List.range (nFeatures labeled)).map
        (fun i => mkRegion labeled ndvi (i + 1)) =
        ((List.range (nFeatures labeled)).map (fun i => i + 1)).map
          (mkRegion labeled ndvi) := by
      rw [List.map_map]
      rfl
    rw [hcomp]
    refine plot_ids_sorted_aux labeled ndvi t m _ ?_
    exact List.Pairwise.map _ (fun a b hab => Nat.add_lt_add_right hab 1)
      (List.sorted_lt_range _)

/-- Witness for C7: a 1-by-3 grid with a kept region (area 2) and a
dropped region (area 1). -/
theorem segment_plots_witness :
    2 ≤ (mkPlot ⟨1, 0, 0, 0, 1, 0⟩
      (mkRegion [[1, 1, 2]] [[1/2, 1/2, 1/2]] 1)).area_pixels :=
  (segment_plots_area_and_order [[1, 1, 2]] [[1/2, 1/2, 1/2]]
    ⟨1, 0, 0, 0, 1, 0⟩ "EPSG:4326" 2).1 _ (by
      rw [segment_plots_plots]
      refine List.mem_filterMap.mpr
        ⟨mkRegion [[1, 1, 2]] [[1/2, 1/2, 1/2]] 1, ?_, ?_⟩
      · exact List.mem_map.mpr ⟨0, List.mem_range.mpr (by decide), rfl⟩
      · have ha1 : ¬ (mkRegion [[1, 1, 2]] [[1/2, 1/2, 1/2]] 1).area < 2 := by
          decide
        simp only [if_neg ha1])

/-- C9: plots_to_geojson emits exactly one feature per plot, in plot
order; each feature is a Polygon whose single ring is the 5-point
closed rectangle over the bounding-box corners, and its properties are
plot_id, health_class, health_color, mean_ndvi and area_pixels. -/
theorem plots_to_geojson_one_feature_per_plot (res : SegmentationResult) :
    (plots_to_geojson res).features.length = res.plots.length ∧
    (∀ (i : ℕ) (p : Plot), res.plots[i]? = some p →
      (plots_to_geojson res).features[i]? = some
        { geometry_type := "Polygon",
          coordinates := [[(p.bbox_geo.west, p.bbox_geo.south),
            (p.bbox_geo.east, p.bbox_geo.south),
            (p.bbox_geo.east, p.bbox_geo.north),
            (p.bbox_geo.west, p.bbox_geo.north),
            (p.bbox_geo.west, p.bbox_geo.south)]],
          properties :=
            ⟨p.id, p.health_class, p.health_color, p.ndvi_mean,
              p.area_pixels⟩ }) ∧
    (∀ f ∈ (plots_to_geojson res).features,
      f.geometry_type = "Polygon" ∧ f.coordinates.length = 1 ∧
      (f.coordinates.headD []).length = 5 ∧
      (f.coordinates.headD []).headD (0, 0) =
        (f.coordinates.headD []).getLastD (0, 0)) := by
  refine ⟨by simp [plots_to_geojson], ?_, ?_⟩
  · intro i p hp
    simp only [plots_to_geojson, List.getElem?_map, hp]
    rfl
  · intro f hf
    simp only [plots_to_geojson, List.mem_map] at hf
    obtain ⟨p, _, rfl⟩ := hf
    exact ⟨rfl, rfl, rfl, rfl⟩

/-- Witness for C9 at a one-plot segmentation result. -/
theorem plots_to_geojson_witness :
    (plots_to_geojson
      { crs := "EPSG:4326", total_plots := 1,
        plots := [⟨1, 4, ⟨0, 0, 1, 1⟩, 0, 0, 1/2, 1/2, 1/2,
          "Moderate Stress", "#f39c12"⟩],
        summary := .empty,
        segmentation_mask_shape := [2, 2] }).features[0]? =
      some { geometry_type := "Polygon",
             coordinates := [[(0, 0), (1, 0), (1, 1), (0, 1), (0, 0)]],
             properties := ⟨1, "Moderate Stress", "#f39c12", 1/2, 4⟩ } :=
  (plots_to_geojson_one_feature_per_plot
    { crs := "EPSG:4326", total_plots := 1,
      plots := [⟨1, 4, ⟨0, 0, 1, 1⟩, 0, 0, 1/2, 1/2, 1/2,
        "Moderate Stress", "#f39c12"⟩],
      summary := .empty,
      segmentation_mask_shape := [2, 2] }).2.1 0
    ⟨1, 4, ⟨0, 0, 1, 1⟩, 0, 0, 1/2, 1/2, 1/2, "Moderate Stress", "#f39c12"⟩
    rfl

end CropPipeline
